import Mathlib

/-!
Verification of the `http-client` library (`src/index.ts`).

The development shallowly embeds the tracing-header request interceptor
installed by `BaseAPIService`, together with its supporting identifier
generators (`randomHex`, `generateTraceparent`, the `uuid` package's v4
generator), and the default response transform.

Modelling conventions:
* A request's header mapping is an association list of (key, value) pairs
  with JavaScript object semantics: exact-key (case-sensitive) lookup,
  assignment replaces the value at an existing key or appends a new pair.
* JavaScript truthiness of a possibly-missing string (`!headers[k]`) is:
  `undefined` and the empty string are falsy, every other string truthy.
* Randomness is made explicit: each entropy consumer receives a byte
  stream `Nat → Nat`; a produced byte is `g i % 256`, matching a filled
  `Uint8Array` whose cells are always in [0, 256).
* The optional OpenTelemetry active-span lookup is a parameter
  `span : Option String`: `some t` when an active span with trace id `t`
  exists, `none` when no span is available or the lookup threw.
-/

namespace HttpClient

/-- A request header mapping: ordered (key, value) pairs, exact keys. -/
abbrev Headers := List (String × String)

/-- JS property read `headers[k]`: the value at the first exact-key match. -/
def getHeader (hs : Headers) (k : String) : Option String :=
  (hs.find? (fun p => p.1 == k)).map Prod.snd

/-- JS property write `headers[k] = v`: replace the value at an existing
exact key, otherwise append the new pair. -/
def setHeader (hs : Headers) (k v : String) : Headers :=
  if hs.any (fun p => p.1 == k) then
    hs.map (fun p => if p.1 == k then (k, v) else p)
  else
    hs ++ [(k, v)]

/-- JS truthiness of `headers[k]`: present with a non-empty value. -/
def headerTruthy (hs : Headers) (k : String) : Bool :=
  match getHeader hs k with
  | some v => v != ""
  | none => false

/-- JS truthiness of an optional string (`undefined` and `""` are falsy). -/
def optTruthy (o : Option String) : Bool :=
  match o with
  | some s => s != ""
  | none => false

/-- One lowercase hexadecimal digit, as produced by `Number.toString(16)`
for an argument below 16. -/
def hexDigit (n : Nat) : Char :=
  if n < 10 then Char.ofNat (48 + n) else Char.ofNat (87 + n)

/-- `b.toString(16).padStart(2, '0')` for a byte `b < 256`: exactly two
lowercase hex digits. -/
def byteToHex (b : Nat) : List Char :=
  [hexDigit (b / 16), hexDigit (b % 16)]

/-- Render a byte list as concatenated two-digit lowercase hex
(`Array.from(bytes, b => b.toString(16).padStart(2,'0')).join('')`). -/
def hexRender (bs : List Nat) : List Char :=
  bs.flatMap byteToHex

/-- The bytes of a filled `Uint8Array(n)` drawn from stream `g`:
`n` cells, each in [0, 256). -/
def drawBytes (g : Nat → Nat) (n : Nat) : List Nat :=
  (List.range n).map (fun i => g i % 256)

/-- `randomHex` from `src/index.ts`: allocates `length / 2` bytes
(`new Uint8Array(length / 2)`), fills them with random values, and renders
each byte as two lowercase hex digits. -/
def randomHex (g : Nat → Nat) (length : Nat) : String :=
  ⟨hexRender (drawBytes g (length / 2))⟩

/-- `generateTraceparent` from `src/index.ts`: version `"00"`,
`traceId = randomHex(32)`, `parentId = randomHex(16)`, flags `"01"`,
rendered `"{version}-{traceId}-{parentId}-{flags}"`. Returns the rendered
header value together with the trace id. The two `randomHex` calls draw
from independent streams `gT`, `gP`. -/
def generateTraceparent (gT gP : Nat → Nat) : String × String :=
  let traceId := randomHex gT 32
  let parentId := randomHex gP 16
  ("00" ++ "-" ++ traceId ++ "-" ++ parentId ++ "-" ++ "01", traceId)

/-- Model of the `uuid` dependency's `v4()` (RFC 4122 version 4):
sixteen random bytes with the version nibble of byte 6 forced to `4`
(`(b6 & 0x0f) | 0x40`) and the two variant bits of byte 8 forced to `10`
(`(b8 & 0x3f) | 0x80`), rendered as 8-4-4-4-12 lowercase hex groups. -/
def uuidv4 (g : Nat → Nat) : String :=
  let b := fun i => g i % 256
  ⟨hexRender [b 0, b 1, b 2, b 3] ++ [Char.ofNat 45] ++
   hexRender [b 4, b 5] ++ [Char.ofNat 45] ++
   hexRender [b 6 % 16 + 64, b 7] ++ [Char.ofNat 45] ++
   hexRender [b 8 % 64 + 128, b 9] ++ [Char.ofNat 45] ++
   hexRender [b 10, b 11, b 12, b 13, b 14, b 15]⟩

/-- The five tracing-related configuration fields of `BaseAPIServiceConfig`,
with their constructor defaults. `serviceName := none` models an absent
`serviceName`. -/
structure Config where
  transactionIdHeader : String := "X-Transaction-ID"
  disableTransactionId : Bool := false
  enableTraceContext : Bool := false
  useTraceIdAsTransactionId : Bool := false
  serviceName : Option String := none

/-- The entropy consumed by one interceptor invocation: the byte streams
for the traceparent's trace id, the traceparent's parent id, and the
UUID v4 transaction id. Each stream is drawn fresh per request. -/
structure Entropy where
  traceBytes : Nat → Nat
  parentBytes : Nat → Nat
  uuidBytes : Nat → Nat

/-- `shouldAddInterceptor` from the constructor:
`!disableTransactionId || enableTraceContext || !!serviceName`
(an empty-string `serviceName` is falsy in JS). -/
def shouldAddInterceptor (cfg : Config) : Bool :=
  !cfg.disableTransactionId || cfg.enableTraceContext || optTruthy cfg.serviceName

/-- Headers after the active-span block of the interceptor: when a span is
present, `traceId` is taken from it and, if `enableTraceContext` holds and
`headers['X-Trace-ID']` is falsy, `X-Trace-ID` is set to that trace id. -/
def spanStepHeaders (cfg : Config) (span : Option String) (hs : Headers) : Headers :=
  match span with
  | some t =>
    if cfg.enableTraceContext && !headerTruthy hs "X-Trace-ID" then
      setHeader hs "X-Trace-ID" t
    else hs
  | none => hs

/-- Guard of the traceparent-synthesis block:
`enableTraceContext && !config.headers['traceparent']`, read after the
active-span block. -/
def synthHappens (cfg : Config) (span : Option String) (hs : Headers) : Bool :=
  cfg.enableTraceContext && !headerTruthy (spanStepHeaders cfg span hs) "traceparent"

/-- The local `traceId` variable after the traceparent-synthesis block:
the active span's id when a span exists, otherwise
(`traceId = traceId ?? trace.traceId`) the freshly synthesized trace id
when synthesis ran, otherwise `undefined`. -/
def observedTraceId (cfg : Config) (ent : Entropy) (span : Option String)
    (hs : Headers) : Option String :=
  if synthHappens cfg span hs then
    match span with
    | some t => some t
    | none => some (generateTraceparent ent.traceBytes ent.parentBytes).2
  else span

/-- The value written into the transaction-id header when the injection
branch fires: `useTraceIdAsTransactionId && traceId ? traceId : uuidv4()`. -/
def txnValue (cfg : Config) (ent : Entropy) (span : Option String)
    (hs : Headers) : String :=
  match observedTraceId cfg ent span hs with
  | some t => if cfg.useTraceIdAsTransactionId && t != "" then t else uuidv4 ent.uuidBytes
  | none => uuidv4 ent.uuidBytes

/-- The traceparent-synthesis block, applied to the headers left by the
active-span block: `if (enableTraceContext && !config.headers['traceparent'])
config.headers['traceparent'] = generateTraceparent().traceparent`. -/
def traceStep (cfg : Config) (ent : Entropy) (hs1 : Headers) : Headers :=
  if cfg.enableTraceContext && !headerTruthy hs1 "traceparent" then
    setHeader hs1 "traceparent" (generateTraceparent ent.traceBytes ent.parentBytes).1
  else hs1

/-- The transaction-id injection block:
`if (!disableTransactionId && !config.headers[this.transactionIdHeader])`
set the configured header to `w` (the already-computed `txnValue`). -/
def txnStep (cfg : Config) (w : String) (hs2 : Headers) : Headers :=
  if !cfg.disableTransactionId && !headerTruthy hs2 cfg.transactionIdHeader then
    setHeader hs2 cfg.transactionIdHeader w
  else hs2

/-- The source-service injection block:
`if (serviceName && !config.headers['X-Source-Service'])`. -/
def serviceStep (cfg : Config) (hs3 : Headers) : Headers :=
  match cfg.serviceName with
  | some sn =>
    if sn != "" && !headerTruthy hs3 "X-Source-Service" then
      setHeader hs3 "X-Source-Service" sn
    else hs3
  | none => hs3

/-- The request interceptor body from `src/index.ts` (the Header Decision
Procedure): active-span block, traceparent synthesis, transaction-id
injection, source-service injection, in that order, each guarded by a JS
truthiness check of the corresponding header. -/
def interceptor (cfg : Config) (ent : Entropy) (span : Option String)
    (hs : Headers) : Headers :=
  serviceStep cfg
    (txnStep cfg (txnValue cfg ent span hs)
      (traceStep cfg ent (spanStepHeaders cfg span hs)))

/-- What a request's headers look like when they reach the transport: the
interceptor runs exactly when `shouldAddInterceptor` held at construction,
otherwise no hook is installed and the headers pass through unchanged. -/
def processRequest (cfg : Config) (ent : Entropy) (span : Option String)
    (hs : Headers) : Headers :=
  if shouldAddInterceptor cfg then interceptor cfg ent span hs else hs

/-! ### Shape predicates for generated identifiers -/

/-- A lowercase hexadecimal digit character (`[0-9a-f]`). -/
def isHexChar (c : Char) : Bool :=
  (48 ≤ c.toNat && c.toNat ≤ 57) || (97 ≤ c.toNat && c.toNat ≤ 102)

/-- Consume exactly `n` lowercase-hex characters from the front of a char
list, returning the remainder; `none` if any of the first `n` characters
is missing or not lowercase hex. -/
def checkHexRun : Nat → List Char → Option (List Char)
  | 0, cs => some cs
  | _ + 1, [] => none
  | n + 1, c :: cs => if isHexChar c then checkHexRun n cs else none

/-- Consume one expected literal character. -/
def expectChar (c : Char) : Option (List Char) → Option (List Char)
  | some (c2 :: rest) => if c2 = c then some rest else none
  | _ => none

/-- Consume exactly `n` lowercase-hex characters. -/
def expectHex (n : Nat) : Option (List Char) → Option (List Char)
  | some cs => checkHexRun n cs
  | none => none

/-- Consume one UUID-variant character (`[89ab]`). -/
def expectVariant : Option (List Char) → Option (List Char)
  | some (v :: rest) =>
    if v = '8' ∨ v = '9' ∨ v = 'a' ∨ v = 'b' then some rest else none
  | _ => none

/-- The UUID v4 shape `xxxxxxxx-xxxx-4xxx-[89ab]xxx-xxxxxxxxxxxx` over
lowercase hex digits: eight hex, `-`, four hex, `-`, `4` and three hex,
`-`, a variant character and three hex, `-`, twelve hex, end of string. -/
def isUuidV4Shape (s : String) : Bool :=
  expectHex 12 (expectChar '-'
    (expectHex 3 (expectVariant (expectChar '-'
      (expectHex 3 (expectChar '4' (expectChar '-'
        (expectHex 4 (expectChar '-'
          (checkHexRun 8 s.data)))))))))) == some []

/-- The W3C traceparent shape `^00-[0-9a-f]\x7b32\x7d-[0-9a-f]\x7b16\x7d-01$`:
literal `00-`, 32 lowercase-hex chars, `-`, 16 lowercase-hex chars,
literal `-01`, end of string. -/
def isTraceparentShape (s : String) : Bool :=
  expectChar '1' (expectChar '0' (expectChar '-'
    (expectHex 16 (expectChar '-'
      (expectHex 32 (expectChar '-' (expectChar '0' (expectChar '0'
        (some s.data))))))))) == some []

/-! ### Response normalization (`defaultTransform` and the transform chain) -/

/-- JavaScript values as they appear in a response-transform pipeline. -/
inductive JSValue where
  | jstr : String → JSValue
  | jnum : Int → JSValue
  | jbool : Bool → JSValue
  | jnull : JSValue
  | jarr : List JSValue → JSValue
  | jobj : List (String × JSValue) → JSValue

/-- `defaultTransform` from `src/index.ts`, with `JSON.parse` plus its
try/catch made explicit as an `Option`-returning parser: a string body is
replaced by its parse result when parsing succeeds, returned unchanged when
parsing fails, and a non-string body passes through unchanged. -/
def defaultTransform (parse : String → Option JSValue) (data : JSValue) : JSValue :=
  match data with
  | .jstr s =>
    match parse s with
    | some v => v
    | none => .jstr s
  | d => d

/-- The caller-supplied `axiosConfig.transformResponse`: absent, a single
transform function, or an array of them. -/
inductive UserTransforms where
  | missing : UserTransforms
  | single : (JSValue → JSValue) → UserTransforms
  | array : List (JSValue → JSValue) → UserTransforms

/-- `userTransforms` from the constructor: `[]` when absent, the array
itself, or the singleton list of the lone function. -/
def userTransformList : UserTransforms → List (JSValue → JSValue)
  | .missing => []
  | .single f => [f]
  | .array fs => fs

/-- `instance.defaults.transformResponse = [defaultTransform, ...userTransforms]`. -/
def transformChain (parse : String → Option JSValue)
    (u : UserTransforms) : List (JSValue → JSValue) :=
  defaultTransform parse :: userTransformList u

/-- Run a transform chain left to right over a response body, the way the
transport applies `transformResponse`. -/
def runTransforms (ts : List (JSValue → JSValue)) (d : JSValue) : JSValue :=
  ts.foldl (fun d f => f d) d

/-! ### Auxiliary concrete objects used by counterexamples and witnesses -/

/-- Modelled from the spec (claim C4 comparison only): a `randomHex` whose
argument counts random bytes — "produces `byteLength` random bytes, renders
each as two lowercase hex digits, concatenates". -/
def randomHexBytesSpec (g : Nat → Nat) (byteLength : Nat) : String :=
  ⟨hexRender (drawBytes g byteLength)⟩

/-- A concrete all-zero entropy assignment. -/
def entZero : Entropy := ⟨fun _ => 0, fun _ => 0, fun _ => 0⟩

/-- A second concrete entropy assignment, distinct from `entZero` as a
function but producing the same bytes (every value is a multiple of 256). -/
def entZero' : Entropy :=
  ⟨fun i => 256 * (i + 1), fun i => 256 * (i + 1), fun i => 256 * (i + 1)⟩

/-- A concrete entropy assignment producing the byte 1 everywhere. -/
def entOne : Entropy := ⟨fun _ => 1, fun _ => 1, fun _ => 1⟩

/-- A concrete toy parser for witnesses: parses `"{}"` to the empty object
and rejects everything else. -/
def parseToy (s : String) : Option JSValue :=
  if s == "{}" then some (.jobj []) else none

/-! ## Basic lemmas about the header mapping -/

theorem getHeader_setHeader_self (hs : Headers) (k v : String) :
    getHeader (setHeader hs k v) k = some v := by
  unfold getHeader setHeader
  split
  · rename_i hany
    rw [List.find?_map]
    induction hs with
    | nil => simp at hany
    | cons a t ih =>
      by_cases hak : a.1 = k
      · simp [List.find?, Function.comp, hak]
      · have hb : (a.1 == k) = false := by simpa using hak
        have ht : t.any (fun p => p.1 == k) = true := by
          simpa [List.any_cons, hb] using hany
        simp only [List.find?, Function.comp, hb, if_neg]
        simpa [hb] using ih ht
  · rename_i hany
    rw [List.find?_append]
    have h0 : hs.find? (fun p => p.1 == k) = none := by
      rw [List.find?_eq_none]
      intro x hx hpx
      have : hs.any (fun p => p.1 == k) = true := List.any_eq_true.mpr ⟨x, hx, hpx⟩
      simp [this] at hany
    simp [h0, List.find?]

theorem getHeader_setHeader_ne (hs : Headers) (k v K : String) (hne : K ≠ k) :
    getHeader (setHeader hs k v) K = getHeader hs K := by
  unfold getHeader setHeader
  split
  · rw [List.find?_map]
    have hfun : ((fun p => p.1 == K) ∘ fun p : String × String =>
        if p.1 == k then (k, v) else p) = (fun p : String × String => p.1 == K) := by
      funext p
      by_cases hpk : p.1 = k
      · have hKk : (k == K) = false := by simpa using Ne.symm hne
        simp [Function.comp, hpk, hKk]
      · simp [Function.comp, hpk]
    rw [hfun]
    cases hfind : hs.find? (fun p => p.1 == K) with
    | none => rfl
    | some a =>
      have ha0 := List.find?_some hfind
      have ha : (a.1 == K) = true := by simpa using ha0
      have hak : (a.1 == k) = false := by
        have : a.1 = K := by simpa using ha
        simpa [this] using hne
      have hak2 : ¬ a.1 = k := by simpa using hak
      simp [hak2]
  · rw [List.find?_append]
    have hb : (k == K) = false := by simpa using Ne.symm hne
    cases h : hs.find? (fun p => p.1 == K) <;> simp [List.find?, hb, h]

theorem headerTruthy_of_some (hs : Headers) (k v : String)
    (h : getHeader hs k = some v) (hv : v ≠ "") : headerTruthy hs k = true := by
  simp [headerTruthy, h, hv]

theorem headerTruthy_false_iff (hs : Headers) (k : String) :
    headerTruthy hs k = false ↔ (getHeader hs k = none ∨ getHeader hs k = some "") := by
  unfold headerTruthy
  cases h : getHeader hs k with
  | none => simp
  | some v => simp [h]

theorem headerTruthy_congr (hs hs2 : Headers) (k : String)
    (h : getHeader hs k = getHeader hs2 k) : headerTruthy hs k = headerTruthy hs2 k := by
  unfold headerTruthy
  rw [h]

/-- Every injection in the procedure has the shape "set `k` to `w` when a
feature flag holds and `headers[k]` is falsy". A header already carrying a
truthy value survives any such guarded set, whatever its key. -/
theorem preserve_guardedSet (hs : Headers) (c : Bool) (k w K v : String)
    (h : getHeader hs K = some v) (hv : v ≠ "") :
    getHeader (if c && !headerTruthy hs k then setHeader hs k w else hs) K = some v := by
  by_cases hK : K = k
  · subst hK
    rw [headerTruthy_of_some hs K v h hv]
    simpa using h
  · split
    · rw [getHeader_setHeader_ne hs k w K hK]; exact h
    · exact h

/-- A guarded set for a different key leaves a header's value unchanged. -/
theorem getHeader_guardedSet_ne (hs : Headers) (c : Bool) (k w K : String)
    (hne : K ≠ k) :
    getHeader (if c && !headerTruthy hs k then setHeader hs k w else hs) K
      = getHeader hs K := by
  split
  · exact getHeader_setHeader_ne hs k w K hne
  · rfl

/-! ## Per-step lemmas for the interceptor -/

theorem preserve_spanStep (cfg : Config) (span : Option String) (hs : Headers)
    (K v : String) (h : getHeader hs K = some v) (hv : v ≠ "") :
    getHeader (spanStepHeaders cfg span hs) K = some v := by
  unfold spanStepHeaders
  cases span with
  | none => exact h
  | some t => exact preserve_guardedSet hs cfg.enableTraceContext "X-Trace-ID" t K v h hv

theorem getHeader_spanStep_ne (cfg : Config) (span : Option String) (hs : Headers)
    (K : String) (hne : K ≠ "X-Trace-ID") :
    getHeader (spanStepHeaders cfg span hs) K = getHeader hs K := by
  unfold spanStepHeaders
  cases span with
  | none => rfl
  | some t => exact getHeader_guardedSet_ne hs cfg.enableTraceContext "X-Trace-ID" t K hne

theorem preserve_traceStep (cfg : Config) (ent : Entropy) (hs : Headers)
    (K v : String) (h : getHeader hs K = some v) (hv : v ≠ "") :
    getHeader (traceStep cfg ent hs) K = some v :=
  preserve_guardedSet hs _ _ _ K v h hv

theorem getHeader_traceStep_ne (cfg : Config) (ent : Entropy) (hs : Headers)
    (K : String) (hne : K ≠ "traceparent") :
    getHeader (traceStep cfg ent hs) K = getHeader hs K :=
  getHeader_guardedSet_ne hs _ _ _ K hne

theorem preserve_txnStep (cfg : Config) (w : String) (hs : Headers)
    (K v : String) (h : getHeader hs K = some v) (hv : v ≠ "") :
    getHeader (txnStep cfg w hs) K = some v :=
  preserve_guardedSet hs _ _ _ K v h hv

theorem getHeader_txnStep_ne (cfg : Config) (w : String) (hs : Headers)
    (K : String) (hne : K ≠ cfg.transactionIdHeader) :
    getHeader (txnStep cfg w hs) K = getHeader hs K :=
  getHeader_guardedSet_ne hs _ _ _ K hne

theorem preserve_serviceStep (cfg : Config) (hs : Headers)
    (K v : String) (h : getHeader hs K = some v) (hv : v ≠ "") :
    getHeader (serviceStep cfg hs) K = some v := by
  unfold serviceStep
  cases cfg.serviceName with
  | none => exact h
  | some sn => exact preserve_guardedSet hs _ _ _ K v h hv

theorem getHeader_serviceStep_ne (cfg : Config) (hs : Headers)
    (K : String) (hne : K ≠ "X-Source-Service") :
    getHeader (serviceStep cfg hs) K = getHeader hs K := by
  unfold serviceStep
  cases cfg.serviceName with
  | none => rfl
  | some sn => exact getHeader_guardedSet_ne hs _ _ _ K hne

/-- Any header carrying a truthy value when the interceptor starts still
carries exactly that value when it finishes. -/
theorem preserve_interceptor (cfg : Config) (ent : Entropy) (span : Option String)
    (hs : Headers) (K v : String) (h : getHeader hs K = some v) (hv : v ≠ "") :
    getHeader (interceptor cfg ent span hs) K = some v :=
  preserve_serviceStep cfg _ K v
    (preserve_txnStep cfg _ _ K v
      (preserve_traceStep cfg ent _ K v
        (preserve_spanStep cfg span hs K v h hv) hv) hv) hv

/-! ## Non-emptiness of generated identifiers -/

theorem uuidv4_ne_empty (g : Nat → Nat) : uuidv4 g ≠ "" := by
  intro h
  have h2 := congrArg String.data h
  simp [uuidv4, hexRender, byteToHex] at h2

theorem traceparent_ne_empty (gT gP : Nat → Nat) :
    (generateTraceparent gT gP).1 ≠ "" := by
  intro h
  have h2 := congrArg String.data h
  simp [generateTraceparent] at h2

theorem txnValue_ne_empty (cfg : Config) (ent : Entropy) (span : Option String)
    (hs : Headers) : txnValue cfg ent span hs ≠ "" := by
  unfold txnValue
  cases hobs : observedTraceId cfg ent span hs with
  | none => exact uuidv4_ne_empty ent.uuidBytes
  | some t =>
    dsimp only
    split
    · rename_i hcond
      have := (Bool.and_eq_true _ _).mp hcond
      simpa using this.2
    · exact uuidv4_ne_empty ent.uuidBytes

/-! ## Final-value lemmas for the interceptor -/

/-- When transaction injection is on and the configured header (distinct
from the two trace headers) is falsy in the incoming request, the
interceptor ends with the configured header set to `txnValue`. -/
theorem txn_final (cfg : Config) (ent : Entropy) (span : Option String) (hs : Headers)
    (hdis : cfg.disableTransactionId = false)
    (habs : headerTruthy hs cfg.transactionIdHeader = false)
    (h1 : cfg.transactionIdHeader ≠ "X-Trace-ID")
    (h2 : cfg.transactionIdHeader ≠ "traceparent") :
    getHeader (interceptor cfg ent span hs) cfg.transactionIdHeader
      = some (txnValue cfg ent span hs) := by
  unfold interceptor
  have e1 : getHeader (spanStepHeaders cfg span hs) cfg.transactionIdHeader
      = getHeader hs cfg.transactionIdHeader :=
    getHeader_spanStep_ne cfg span hs _ h1
  have e2 : getHeader (traceStep cfg ent (spanStepHeaders cfg span hs)) cfg.transactionIdHeader
      = getHeader hs cfg.transactionIdHeader := by
    rw [getHeader_traceStep_ne cfg ent _ _ h2, e1]
  have ht2 : headerTruthy (traceStep cfg ent (spanStepHeaders cfg span hs))
      cfg.transactionIdHeader = false := by
    rw [headerTruthy_congr _ hs _ e2]
    exact habs
  have hfire : txnStep cfg (txnValue cfg ent span hs)
      (traceStep cfg ent (spanStepHeaders cfg span hs))
      = setHeader (traceStep cfg ent (spanStepHeaders cfg span hs))
          cfg.transactionIdHeader (txnValue cfg ent span hs) := by
    unfold txnStep
    rw [hdis, ht2]
    simp
  rw [hfire]
  exact preserve_serviceStep cfg _ _ _
    (getHeader_setHeader_self _ _ _) (txnValue_ne_empty cfg ent span hs)

/-- When trace context is enabled and the `traceparent` header is falsy in
the incoming request, the interceptor ends with `traceparent` set to the
synthesized value. -/
theorem tp_final (cfg : Config) (ent : Entropy) (span : Option String) (hs : Headers)
    (hen : cfg.enableTraceContext = true)
    (habs : headerTruthy hs "traceparent" = false) :
    getHeader (interceptor cfg ent span hs) "traceparent"
      = some (generateTraceparent ent.traceBytes ent.parentBytes).1 := by
  unfold interceptor
  have e1 : getHeader (spanStepHeaders cfg span hs) "traceparent"
      = getHeader hs "traceparent" :=
    getHeader_spanStep_ne cfg span hs _ (by decide)
  have ht1 : headerTruthy (spanStepHeaders cfg span hs) "traceparent" = false := by
    rw [headerTruthy_congr _ hs _ e1]
    exact habs
  have hfire : traceStep cfg ent (spanStepHeaders cfg span hs)
      = setHeader (spanStepHeaders cfg span hs) "traceparent"
          (generateTraceparent ent.traceBytes ent.parentBytes).1 := by
    unfold traceStep
    rw [hen, ht1]
    simp
  rw [hfire]
  exact preserve_serviceStep cfg _ _ _
    (preserve_txnStep cfg _ _ _ _
      (getHeader_setHeader_self _ _ _) (traceparent_ne_empty _ _))
    (traceparent_ne_empty _ _)

/-- When an active span with a non-empty trace id exists, trace context is
enabled, and `X-Trace-ID` is falsy in the incoming request, the interceptor
ends with `X-Trace-ID` set to the span's trace id. -/
theorem xtrace_final (cfg : Config) (ent : Entropy) (t : String) (hs : Headers)
    (hen : cfg.enableTraceContext = true)
    (habs : headerTruthy hs "X-Trace-ID" = false)
    (ht : t ≠ "") :
    getHeader (interceptor cfg ent (some t) hs) "X-Trace-ID" = some t := by
  unfold interceptor
  have hfire : spanStepHeaders cfg (some t) hs = setHeader hs "X-Trace-ID" t := by
    unfold spanStepHeaders
    rw [hen, habs]
    simp
  rw [hfire]
  exact preserve_serviceStep cfg _ _ _
    (preserve_txnStep cfg _ _ _ _
      (preserve_traceStep cfg ent _ _ _ (getHeader_setHeader_self _ _ _) ht) ht) ht

/-- Without an active span the interceptor never touches `X-Trace-ID`
(provided the configured transaction header is not named `X-Trace-ID`). -/
theorem xtrace_unchanged (cfg : Config) (ent : Entropy) (hs : Headers)
    (hhdr : cfg.transactionIdHeader ≠ "X-Trace-ID") :
    getHeader (interceptor cfg ent none hs) "X-Trace-ID"
      = getHeader hs "X-Trace-ID" := by
  unfold interceptor
  rw [getHeader_serviceStep_ne cfg _ _ (by decide),
    getHeader_txnStep_ne cfg _ _ _ (Ne.symm hhdr),
    getHeader_traceStep_ne cfg ent _ _ (by decide)]
  rfl

/-- When a non-empty service name is configured and `X-Source-Service` is
falsy in the incoming request, the interceptor ends with `X-Source-Service`
set to the configured name. -/
theorem xsource_final (cfg : Config) (ent : Entropy) (span : Option String)
    (hs : Headers) (sn : String)
    (hsn : cfg.serviceName = some sn) (hsn2 : sn ≠ "")
    (habs : headerTruthy hs "X-Source-Service" = false)
    (hhdr : cfg.transactionIdHeader ≠ "X-Source-Service") :
    getHeader (interceptor cfg ent span hs) "X-Source-Service" = some sn := by
  unfold interceptor
  have e3 : getHeader (txnStep cfg (txnValue cfg ent span hs)
      (traceStep cfg ent (spanStepHeaders cfg span hs))) "X-Source-Service"
      = getHeader hs "X-Source-Service" := by
    rw [getHeader_txnStep_ne cfg _ _ _ (Ne.symm hhdr),
      getHeader_traceStep_ne cfg ent _ _ (by decide),
      getHeader_spanStep_ne cfg span hs _ (by decide)]
  have ht3 : headerTruthy (txnStep cfg (txnValue cfg ent span hs)
      (traceStep cfg ent (spanStepHeaders cfg span hs))) "X-Source-Service" = false := by
    rw [headerTruthy_congr _ hs _ e3]
    exact habs
  unfold serviceStep
  rw [hsn]
  have hsb : (sn != "") = true := by simpa using hsn2
  dsimp only
  rw [ht3]
  simp [hsb, getHeader_setHeader_self]

/-! ## Hex rendering, identifier shapes, and first-byte injectivity -/

theorem isHexChar_hexDigit (n : Nat) (h : n < 16) : isHexChar (hexDigit n) = true := by
  interval_cases n <;> decide

theorem hexDigit_inj (m n : Nat) (hm : m < 16) (hn : n < 16)
    (h : hexDigit m = hexDigit n) : m = n := by
  interval_cases m <;> interval_cases n <;> simp_all <;> revert h <;> decide

theorem hexRender_length (bs : List Nat) : (hexRender bs).length = 2 * bs.length := by
  induction bs with
  | nil => rfl
  | cons b t ih =>
    simp only [hexRender, List.flatMap_cons, List.length_append, List.length_cons] at ih ⊢
    simp [byteToHex] at ih ⊢
    omega

theorem mem_hexRender_hex (bs : List Nat) (hb : ∀ x ∈ bs, x < 256) :
    ∀ c ∈ hexRender bs, isHexChar c = true := by
  induction bs with
  | nil => intro c hc; simp [hexRender] at hc
  | cons b t ih =>
    intro c hc
    have hb0 : b < 256 := hb b (by simp)
    simp only [hexRender, List.flatMap_cons, List.mem_append] at hc
    rcases hc with h | h
    · simp [byteToHex] at h
      rcases h with h | h
      · subst h; exact isHexChar_hexDigit _ (by omega)
      · subst h; exact isHexChar_hexDigit _ (by omega)
    · exact ih (fun x hx => hb x (by simp [hx])) c h

theorem checkHexRun_exact : ∀ (cs rest : List Char), (∀ c ∈ cs, isHexChar c = true) →
    checkHexRun cs.length (cs ++ rest) = some rest
  | [], rest, _ => rfl
  | c :: cs, rest, h => by
    have hc : isHexChar c = true := h c (by simp)
    simp only [List.length_cons, List.cons_append, checkHexRun, hc, if_true]
    exact checkHexRun_exact cs rest (fun x hx => h x (by simp [hx]))

theorem checkHexRun_hexRender (bs : List Nat) (n : Nat) (rest : List Char)
    (hb : ∀ x ∈ bs, x < 256) (hn : n = 2 * bs.length) :
    checkHexRun n (hexRender bs ++ rest) = some rest := by
  subst hn
  rw [← hexRender_length bs]
  exact checkHexRun_exact _ rest (mem_hexRender_hex bs hb)

theorem checkHexRun_byte (b : Nat) (rest : List Char) (hb : b < 256) :
    checkHexRun 2 (byteToHex b ++ rest) = some rest := by
  simp [byteToHex, checkHexRun,
    isHexChar_hexDigit (b / 16) (by omega),
    isHexChar_hexDigit (b % 16) (by omega)]

theorem drawBytes_lt (g : Nat → Nat) (n : Nat) : ∀ x ∈ drawBytes g n, x < 256 := by
  intro x hx
  simp [drawBytes] at hx
  obtain ⟨i, _, hi⟩ := hx
  omega

theorem drawBytes_length (g : Nat → Nat) (n : Nat) : (drawBytes g n).length = n := by
  simp [drawBytes]

theorem expectChar_cons (c : Char) (rest : List Char) :
    expectChar c (some (c :: rest)) = some rest := by
  simp [expectChar]

theorem checkHexRun_cons_hexDigit (n d : Nat) (rest : List Char) (hd : d < 16) :
    checkHexRun (n + 1) (hexDigit d :: rest) = checkHexRun n rest := by
  simp [checkHexRun, isHexChar_hexDigit d hd]

theorem expectVariant_cons (q : Nat) (rest : List Char)
    (hq : q = 8 ∨ q = 9 ∨ q = 10 ∨ q = 11) :
    expectVariant (some (hexDigit q :: rest)) = some rest := by
  rcases hq with h | h | h | h <;> subst h <;>
    simp [expectVariant, show hexDigit 8 = '8' from by decide,
      show hexDigit 9 = '9' from by decide,
      show hexDigit 10 = 'a' from by decide,
      show hexDigit 11 = 'b' from by decide]

theorem uuidv4_data (g : Nat → Nat) : (uuidv4 g).data =
    hexRender [g 0 % 256, g 1 % 256, g 2 % 256, g 3 % 256] ++ '-' ::
    (hexRender [g 4 % 256, g 5 % 256] ++ '-' ::
     (hexRender [g 6 % 256 % 16 + 64, g 7 % 256] ++ '-' ::
      (hexRender [g 8 % 256 % 64 + 128, g 9 % 256] ++ '-' ::
       hexRender [g 10 % 256, g 11 % 256, g 12 % 256, g 13 % 256,
         g 14 % 256, g 15 % 256]))) := by
  show (String.mk _).data = _
  simp only [String.data]
  simp [List.append_assoc]

theorem isUuidV4Shape_uuidv4 (g : Nat → Nat) : isUuidV4Shape (uuidv4 g) = true := by
  have h6a : (g 6 % 256 % 16 + 64) / 16 = 4 := by omega
  have h6b : (g 6 % 256 % 16 + 64) % 16 = g 6 % 256 % 16 := by omega
  have hC : hexRender [g 6 % 256 % 16 + 64, g 7 % 256]
      = '4' :: hexDigit (g 6 % 256 % 16) :: byteToHex (g 7 % 256) := by
    simp [hexRender, byteToHex, h6a, h6b]
    decide
  rw [isUuidV4Shape, uuidv4_data]
  rw [checkHexRun_hexRender _ 8 _ (by intro x hx; simp at hx; omega) (by simp)]
  rw [expectChar_cons]
  rw [expectHex, checkHexRun_hexRender _ 4 _ (by intro x hx; simp at hx; omega) (by simp)]
  rw [expectChar_cons]
  rw [hC]
  simp only [List.cons_append]
  rw [expectChar_cons]
  rw [expectHex, show (3 : Nat) = 2 + 1 from rfl,
    checkHexRun_cons_hexDigit 2 _ _ (by omega),
    checkHexRun_byte _ _ (by omega)]
  rw [expectChar_cons]
  have h8b : (g 8 % 256 % 64 + 128) % 16 = g 8 % 256 % 64 % 16 := by omega
  have hD : hexRender [g 8 % 256 % 64 + 128, g 9 % 256]
      = hexDigit ((g 8 % 256 % 64 + 128) / 16) :: hexDigit (g 8 % 256 % 64 % 16)
          :: byteToHex (g 9 % 256) := by
    simp [hexRender, byteToHex, h8b]
  rw [hD]
  simp only [List.cons_append]
  rw [expectVariant_cons _ _ (by omega)]
  rw [expectHex, checkHexRun_cons_hexDigit 2 _ _ (by omega),
    checkHexRun_byte _ _ (by omega)]
  rw [expectChar_cons]
  rw [expectHex, ← List.append_nil (hexRender [g 10 % 256, g 11 % 256, g 12 % 256,
    g 13 % 256, g 14 % 256, g 15 % 256]),
    checkHexRun_hexRender _ 12 _ (by intro x hx; simp at hx; omega) (by simp)]
  rfl



theorem traceparent_data (gT gP : Nat → Nat) :
    ((generateTraceparent gT gP).1).data =
      '0' :: '0' :: '-' :: (hexRender (drawBytes gT 16) ++ '-' ::
        (hexRender (drawBytes gP 8) ++ ['-', '0', '1'])) := by
  show (("00" ++ "-" ++ randomHex gT 32 ++ "-" ++ randomHex gP 16 ++ "-" ++ "01") : String).data = _
  simp [randomHex, String.data_append]



theorem isTraceparentShape_gen (gT gP : Nat → Nat) :
    isTraceparentShape (generateTraceparent gT gP).1 = true := by
  rw [isTraceparentShape, traceparent_data]
  rw [expectChar_cons, expectChar_cons, expectChar_cons]
  rw [expectHex, checkHexRun_hexRender _ 32 _ (drawBytes_lt gT 16)
    (by simp [drawBytes_length])]
  rw [expectChar_cons]
  rw [expectHex, checkHexRun_hexRender _ 16 _ (drawBytes_lt gP 8)
    (by simp [drawBytes_length])]
  rw [expectChar_cons, expectChar_cons, expectChar_cons]
  rfl

theorem drawBytes_sixteen_head (g : Nat → Nat) :
    ∃ rest, drawBytes g 16 = g 0 % 256 :: rest := by
  refine ⟨((List.range 15).map (· + 1)).map (fun i => g i % 256), ?_⟩
  simp [drawBytes, List.range_succ_eq_map]

theorem uuidv4_ne_of_byte0 (g g2 : Nat → Nat) (h : g 0 % 256 ≠ g2 0 % 256) :
    uuidv4 g ≠ uuidv4 g2 := by
  intro he
  have hd := congrArg String.data he
  rw [uuidv4_data, uuidv4_data] at hd
  simp only [hexRender, byteToHex, List.flatMap_cons, List.cons_append,
    List.append_assoc, List.cons.injEq] at hd
  have h1 := hd.1
  have h2 := hd.2.1
  have e1 : g 0 % 256 / 16 = g2 0 % 256 / 16 :=
    hexDigit_inj _ _ (by omega) (by omega) h1
  have e2 : g 0 % 256 % 16 = g2 0 % 256 % 16 :=
    hexDigit_inj _ _ (by omega) (by omega) h2
  omega

theorem randomHex32_ne_of_byte0 (g g2 : Nat → Nat) (h : g 0 % 256 ≠ g2 0 % 256) :
    randomHex g 32 ≠ randomHex g2 32 := by
  intro he
  have hd := congrArg String.data he
  obtain ⟨r1, hr1⟩ := drawBytes_sixteen_head g
  obtain ⟨r2, hr2⟩ := drawBytes_sixteen_head g2
  simp only [randomHex] at hd
  rw [show (32 : Nat) / 2 = 16 from rfl] at hd
  rw [hr1, hr2] at hd
  simp only [hexRender, byteToHex, List.flatMap_cons, List.cons_append,
    List.cons.injEq] at hd
  have e1 : g 0 % 256 / 16 = g2 0 % 256 / 16 :=
    hexDigit_inj _ _ (by omega) (by omega) hd.1
  have e2 : g 0 % 256 % 16 = g2 0 % 256 % 16 :=
    hexDigit_inj _ _ (by omega) (by omega) hd.2.1
  omega

theorem traceparent_ne_of_byte0 (gT gP gT2 gP2 : Nat → Nat)
    (h : gT 0 % 256 ≠ gT2 0 % 256) :
    (generateTraceparent gT gP).1 ≠ (generateTraceparent gT2 gP2).1 := by
  intro he
  have hd := congrArg String.data he
  rw [traceparent_data, traceparent_data] at hd
  obtain ⟨r1, hr1⟩ := drawBytes_sixteen_head gT
  obtain ⟨r2, hr2⟩ := drawBytes_sixteen_head gT2
  rw [hr1, hr2] at hd
  simp only [hexRender, byteToHex, List.flatMap_cons, List.cons_append,
    List.cons.injEq] at hd
  have h1 := hd.2.2.2.1
  have h2 := hd.2.2.2.2.1
  have e1 : gT 0 % 256 / 16 = gT2 0 % 256 / 16 :=
    hexDigit_inj _ _ (by omega) (by omega) h1
  have e2 : gT 0 % 256 % 16 = gT2 0 % 256 % 16 :=
    hexDigit_inj _ _ (by omega) (by omega) h2
  omega

theorem traceId_ne_of_byte0 (gT gP gT2 gP2 : Nat → Nat)
    (h : gT 0 % 256 ≠ gT2 0 % 256) :
    (generateTraceparent gT gP).2 ≠ (generateTraceparent gT2 gP2).2 := by
  intro he
  exact randomHex32_ne_of_byte0 gT gT2 h he

/-! ## Claim theorems -/

theorem txnValue_of_useFalse (cfg : Config) (ent : Entropy) (span : Option String)
    (hs : Headers) (huse : cfg.useTraceIdAsTransactionId = false) :
    txnValue cfg ent span hs = uuidv4 ent.uuidBytes := by
  unfold txnValue
  cases hobs : observedTraceId cfg ent span hs with
  | none => rfl
  | some t => dsimp only; simp [huse]

/-- C1 (counterexample): with trace context enabled and `traceparent`
pre-set to the empty string, the procedure does not leave that value
unchanged — the empty string is falsy, so the header is overwritten. -/
theorem C1_counterexample :
    getHeader (interceptor { enableTraceContext := true } entZero none
      [("traceparent", "")]) "traceparent" ≠ some "" := by
  decide

/-- C1 (amended): any of the four managed headers that is present with a
*non-empty* value before the procedure runs has exactly the same value
after it runs, for every configuration (headers pre-set to the empty
string are instead treated as absent, see C10). -/
theorem C1_nonclobber (cfg : Config) (ent : Entropy) (span : Option String)
    (hs : Headers) (v : String) (hv : v ≠ "") :
    (getHeader hs cfg.transactionIdHeader = some v →
      getHeader (processRequest cfg ent span hs) cfg.transactionIdHeader = some v) ∧
    (getHeader hs "traceparent" = some v →
      getHeader (processRequest cfg ent span hs) "traceparent" = some v) ∧
    (getHeader hs "X-Trace-ID" = some v →
      getHeader (processRequest cfg ent span hs) "X-Trace-ID" = some v) ∧
    (getHeader hs "X-Source-Service" = some v →
      getHeader (processRequest cfg ent span hs) "X-Source-Service" = some v) := by
  refine ⟨?_, ?_, ?_, ?_⟩ <;> intro h <;> unfold processRequest <;> split <;>
    first
      | exact preserve_interceptor cfg ent span hs _ v h hv
      | exact h

theorem C1_nonclobber_witness :
    getHeader (processRequest {} entZero none
      [("X-Transaction-ID", "keep"), ("traceparent", "keep"),
       ("X-Trace-ID", "keep"), ("X-Source-Service", "keep")])
      "X-Transaction-ID" = some "keep" ∧
    getHeader (processRequest {} entZero none
      [("X-Transaction-ID", "keep"), ("traceparent", "keep"),
       ("X-Trace-ID", "keep"), ("X-Source-Service", "keep")])
      "traceparent" = some "keep" ∧
    getHeader (processRequest {} entZero none
      [("X-Transaction-ID", "keep"), ("traceparent", "keep"),
       ("X-Trace-ID", "keep"), ("X-Source-Service", "keep")])
      "X-Trace-ID" = some "keep" ∧
    getHeader (processRequest {} entZero none
      [("X-Transaction-ID", "keep"), ("traceparent", "keep"),
       ("X-Trace-ID", "keep"), ("X-Source-Service", "keep")])
      "X-Source-Service" = some "keep" :=
  have h := C1_nonclobber {} entZero none
    [("X-Transaction-ID", "keep"), ("traceparent", "keep"),
     ("X-Trace-ID", "keep"), ("X-Source-Service", "keep")] "keep" (by decide)
  ⟨h.1 (by decide), h.2.1 (by decide), h.2.2.1 (by decide), h.2.2.2 (by decide)⟩

/-- C2 (counterexample): with trace context enabled, no active span, and no
pre-set headers, the synthesized traceparent is injected but `X-Trace-ID`
is *not* set from the synthesized trace id, contradicting spec step 4. -/
theorem C2_counterexample :
    getHeader (interceptor { enableTraceContext := true } entZero none [])
      "X-Trace-ID" = none ∧
    getHeader (interceptor { enableTraceContext := true } entZero none [])
      "traceparent"
      = some "00-00000000000000000000000000000000-0000000000000000-01" := by
  decide

/-- C2 (amended): the secondary trace-id header is populated only through
the active-span path, before traceparent synthesis: with trace context
enabled, an active span whose trace id is non-empty, and `X-Trace-ID` not
truthy in the request, `X-Trace-ID` is set to the span's trace id; with no
active span, `X-Trace-ID` is never touched (the synthesized trace id is
not used for it). -/
theorem C2_xtraceid (cfg : Config) (ent : Entropy) (hs : Headers) (t : String)
    (hen : cfg.enableTraceContext = true) (ht : t ≠ "")
    (habs : headerTruthy hs "X-Trace-ID" = false)
    (hhdr : cfg.transactionIdHeader ≠ "X-Trace-ID") :
    getHeader (interceptor cfg ent (some t) hs) "X-Trace-ID" = some t ∧
    getHeader (interceptor cfg ent none hs) "X-Trace-ID"
      = getHeader hs "X-Trace-ID" :=
  ⟨xtrace_final cfg ent t hs hen habs ht, xtrace_unchanged cfg ent hs hhdr⟩

theorem C2_xtraceid_witness :
    getHeader (interceptor { enableTraceContext := true } entZero
      (some "beef") []) "X-Trace-ID" = some "beef" ∧
    getHeader (interceptor { enableTraceContext := true } entZero none [])
      "X-Trace-ID" = getHeader ([] : Headers) "X-Trace-ID" :=
  have h := C2_xtraceid { enableTraceContext := true } entZero [] "beef"
    rfl (by decide) (by decide) (by decide)
  ⟨h.1, h.2⟩



/-- C3 (counterexample): two runs of the procedure over the embedding are
parameterized by their entropy; two runs whose (distinct) entropy streams
happen to produce the same bytes yield identical transaction ids and
identical traceparent values, so collisions are not impossible as claimed. -/
theorem C3_counterexample :
    getHeader (interceptor { enableTraceContext := true } entZero none [])
        "X-Transaction-ID"
      = getHeader (interceptor { enableTraceContext := true } entZero' none [])
        "X-Transaction-ID" ∧
    getHeader (interceptor { enableTraceContext := true } entZero none [])
        "X-Transaction-ID" ≠ none ∧
    getHeader (interceptor { enableTraceContext := true } entZero none [])
        "traceparent"
      = getHeader (interceptor { enableTraceContext := true } entZero' none [])
        "traceparent" ∧
    getHeader (interceptor { enableTraceContext := true } entZero none [])
        "traceparent" ≠ none := by
  decide

/-- C3 (amended): uniqueness holds exactly as far as the random draws
differ: for two runs with injection enabled whose UUID byte streams differ
in the first byte, the injected transaction ids differ; and with trace
context enabled, when the trace-id byte streams differ in the first byte
the injected traceparent values differ. -/
theorem C3_uniqueness (cfg : Config) (ent1 ent2 : Entropy) (hsA hsB : Headers)
    (hdis : cfg.disableTransactionId = false)
    (huse : cfg.useTraceIdAsTransactionId = false)
    (hA : headerTruthy hsA cfg.transactionIdHeader = false)
    (hB : headerTruthy hsB cfg.transactionIdHeader = false)
    (h1 : cfg.transactionIdHeader ≠ "X-Trace-ID")
    (h2 : cfg.transactionIdHeader ≠ "traceparent")
    (hu : ent1.uuidBytes 0 % 256 ≠ ent2.uuidBytes 0 % 256) :
    getHeader (interceptor cfg ent1 none hsA) cfg.transactionIdHeader
      ≠ getHeader (interceptor cfg ent2 none hsB) cfg.transactionIdHeader ∧
    (cfg.enableTraceContext = true →
      headerTruthy hsA "traceparent" = false →
      headerTruthy hsB "traceparent" = false →
      ent1.traceBytes 0 % 256 ≠ ent2.traceBytes 0 % 256 →
      getHeader (interceptor cfg ent1 none hsA) "traceparent"
        ≠ getHeader (interceptor cfg ent2 none hsB) "traceparent") := by
  constructor
  · rw [txn_final cfg ent1 none hsA hdis hA h1 h2,
      txn_final cfg ent2 none hsB hdis hB h1 h2,
      txnValue_of_useFalse cfg ent1 none hsA huse,
      txnValue_of_useFalse cfg ent2 none hsB huse]
    intro he
    exact uuidv4_ne_of_byte0 ent1.uuidBytes ent2.uuidBytes hu (by simpa using he)
  · intro hen htA htB htr
    rw [tp_final cfg ent1 none hsA hen htA, tp_final cfg ent2 none hsB hen htB]
    intro he
    exact traceparent_ne_of_byte0 ent1.traceBytes ent1.parentBytes
      ent2.traceBytes ent2.parentBytes htr (by simpa using he)

theorem C3_uniqueness_witness :
    getHeader (interceptor { enableTraceContext := true } entZero none [])
        "X-Transaction-ID"
      ≠ getHeader (interceptor { enableTraceContext := true } entOne none [])
        "X-Transaction-ID" ∧
    getHeader (interceptor { enableTraceContext := true } entZero none [])
        "traceparent"
      ≠ getHeader (interceptor { enableTraceContext := true } entOne none [])
        "traceparent" :=
  have h := C3_uniqueness { enableTraceContext := true } entZero entOne [] []
    rfl rfl (by decide) (by decide) (by decide) (by decide) (by decide)
  ⟨h.1, h.2 rfl (by decide) (by decide) (by decide)⟩

/-- C4 (counterexample): `randomHex`'s argument is the hex-string length,
not a byte count — `randomHex(16)` yields 16 hex characters from 8 bytes,
not 32 characters from 16 bytes — and the synthesizer obtains its trace id
as `randomHex(32)`, not `randomHex(16)`. -/
theorem C4_counterexample :
    randomHex (fun _ => 0) 16 ≠ randomHexBytesSpec (fun _ => 0) 16 ∧
    (generateTraceparent (fun _ => 0) (fun _ => 0)).2 ≠ randomHex (fun _ => 0) 16 := by
  decide

/-- C4 (amended): `randomHex(n)` for even non-negative `n` produces `n / 2`
random bytes, renders each as two lowercase hex digits, and returns the
concatenation — a string of `n` lowercase-hex characters; the synthesizer
obtains its 32-char trace id as `randomHex(32)` and its 16-char parent id
as `randomHex(16)`. -/
theorem C4_randomHex (g gT gP : Nat → Nat) (n : Nat) (hn : n % 2 = 0) :
    randomHex g n = ⟨hexRender (drawBytes g (n / 2))⟩ ∧
    (randomHex g n).length = n ∧
    (randomHex g n).data.all isHexChar = true ∧
    (generateTraceparent gT gP).2 = randomHex gT 32 ∧
    (generateTraceparent gT gP).1
      = "00" ++ "-" ++ randomHex gT 32 ++ "-" ++ randomHex gP 16 ++ "-" ++ "01" := by
  refine ⟨rfl, ?_, ?_, rfl, rfl⟩
  · show (String.mk (hexRender (drawBytes g (n / 2)))).length = n
    rw [String.length_mk, hexRender_length, drawBytes_length]
    omega
  · show (String.mk (hexRender (drawBytes g (n / 2)))).data.all isHexChar = true
    rw [List.all_eq_true]
    intro c hc
    exact mem_hexRender_hex _ (drawBytes_lt g _) c (by simpa using hc)

theorem C4_randomHex_witness :
    32 % 2 = 0 ∧
    (randomHex (fun _ => 0) 32).length = 32 ∧
    (generateTraceparent (fun _ => 0) (fun _ => 0)).2 = randomHex (fun _ => 0) 32 :=
  have h := C4_randomHex (fun _ => 0) (fun _ => 0) (fun _ => 0) 32 (by decide)
  ⟨by decide, h.2.1, h.2.2.2.1⟩



/-- C5 (confirmed): with transaction injection enabled and the configured
header (named apart from the two fixed trace headers) absent from the
request, the procedure sets that header to `txnValue`, which equals the
observed trace id exactly when `useTraceIdAsTransactionId` holds and a
truthy observed trace id is available (from the active span or the
synthesized trace context), and otherwise is a fresh UUID v4-shaped
identifier. -/
theorem C5_transactionId (cfg : Config) (ent : Entropy) (span : Option String)
    (hs : Headers)
    (hdis : cfg.disableTransactionId = false)
    (habs : getHeader hs cfg.transactionIdHeader = none)
    (h1 : cfg.transactionIdHeader ≠ "X-Trace-ID")
    (h2 : cfg.transactionIdHeader ≠ "traceparent") :
    getHeader (interceptor cfg ent span hs) cfg.transactionIdHeader
      = some (txnValue cfg ent span hs) ∧
    (∀ t, cfg.useTraceIdAsTransactionId = true →
      observedTraceId cfg ent span hs = some t → t ≠ "" →
      txnValue cfg ent span hs = t) ∧
    ((cfg.useTraceIdAsTransactionId = false ∨
        optTruthy (observedTraceId cfg ent span hs) = false) →
      txnValue cfg ent span hs = uuidv4 ent.uuidBytes ∧
      isUuidV4Shape (uuidv4 ent.uuidBytes) = true) := by
  refine ⟨txn_final cfg ent span hs hdis
    (by rw [headerTruthy_false_iff]; exact Or.inl habs) h1 h2, ?_, ?_⟩
  · intro t huse hobs ht
    unfold txnValue
    rw [hobs]
    dsimp only
    simp [huse, ht]
  · intro hcase
    refine ⟨?_, isUuidV4Shape_uuidv4 ent.uuidBytes⟩
    unfold txnValue
    cases hobs : observedTraceId cfg ent span hs with
    | none => rfl
    | some t =>
      dsimp only
      rcases hcase with huse | hopt
      · simp [huse]
      · rw [hobs] at hopt
        simp only [optTruthy] at hopt
        simp [hopt]

theorem C5_transactionId_witness :
    getHeader (interceptor {} entZero none []) "X-Transaction-ID"
      = some (txnValue {} entZero none []) ∧
    txnValue {} entZero none [] = uuidv4 entZero.uuidBytes ∧
    isUuidV4Shape (uuidv4 entZero.uuidBytes) = true :=
  have h := C5_transactionId {} entZero none [] rfl (by decide)
    (by decide) (by decide)
  ⟨h.1, (h.2.2 (Or.inl rfl)).1, (h.2.2 (Or.inl rfl)).2⟩

/-- C6 (counterexample): a caller-supplied `Traceparent` header (differing
from `traceparent` only in case) does not suppress injection — the
procedure still injects a fresh `traceparent` header. -/
theorem C6_counterexample :
    getHeader (interceptor { disableTransactionId := true, enableTraceContext := true }
      entZero none [("Traceparent", "00-11-22-01")]) "traceparent"
      = some "00-00000000000000000000000000000000-0000000000000000-01" := by
  decide

/-- C6 (amended): the existence check is exact-key and case-sensitive:
even when the request carries a header whose key differs from
`traceparent` only in letter case (with a non-empty value), injection of
`traceparent` proceeds whenever the exact key `traceparent` is absent. -/
theorem C6_caseSensitive (cfg : Config) (ent : Entropy) (span : Option String)
    (hs : Headers) (w : String)
    (hen : cfg.enableTraceContext = true)
    (hmem : ("Traceparent", w) ∈ hs) (hw : w ≠ "")
    (habs : getHeader hs "traceparent" = none) :
    getHeader (interceptor cfg ent span hs) "traceparent"
      = some (generateTraceparent ent.traceBytes ent.parentBytes).1 :=
  tp_final cfg ent span hs hen (by rw [headerTruthy_false_iff]; exact Or.inl habs)

theorem C6_caseSensitive_witness :
    getHeader (interceptor { enableTraceContext := true } entZero none
      [("Traceparent", "00-11-22-01")]) "traceparent"
      = some (generateTraceparent entZero.traceBytes entZero.parentBytes).1 :=
  C6_caseSensitive { enableTraceContext := true } entZero none
    [("Traceparent", "00-11-22-01")] "00-11-22-01" rfl (by decide) (by decide)
    (by decide)

/-- C7 (confirmed): with transaction injection disabled, trace context
disabled, and no service name, no interceptor is installed and every
request's header mapping reaches the transport unchanged. -/
theorem C7_passThrough (cfg : Config) (ent : Entropy) (span : Option String)
    (hs : Headers)
    (h1 : cfg.disableTransactionId = true)
    (h2 : cfg.enableTraceContext = false)
    (h3 : cfg.serviceName = none) :
    shouldAddInterceptor cfg = false ∧ processRequest cfg ent span hs = hs := by
  have hsi : shouldAddInterceptor cfg = false := by
    simp [shouldAddInterceptor, h1, h2, h3, optTruthy]
  refine ⟨hsi, ?_⟩
  unfold processRequest
  rw [hsi]
  simp

theorem C7_passThrough_witness :
    shouldAddInterceptor { disableTransactionId := true } = false ∧
    processRequest { disableTransactionId := true } entZero none
      [("Authorization", "Bearer x")] = [("Authorization", "Bearer x")] :=
  C7_passThrough { disableTransactionId := true } entZero none
    [("Authorization", "Bearer x")] rfl rfl rfl



/-- C8 (confirmed): a string body that parses is replaced by the parse
result; a string body that fails to parse is returned unchanged (the
transform is total — no error); a non-string body passes through; and the
installed chain runs caller-supplied transforms after the default one. -/
theorem C8_responseTransform (parse : String → Option JSValue)
    (u : UserTransforms) (d : JSValue) (s : String) (v : JSValue) :
    (parse s = some v → defaultTransform parse (.jstr s) = v) ∧
    (parse s = none → defaultTransform parse (.jstr s) = .jstr s) ∧
    ((∀ s2, d ≠ .jstr s2) → defaultTransform parse d = d) ∧
    runTransforms (transformChain parse u) d
      = runTransforms (userTransformList u) (defaultTransform parse d) := by
  refine ⟨?_, ?_, ?_, rfl⟩
  · intro h; simp [defaultTransform, h]
  · intro h; simp [defaultTransform, h]
  · intro h
    cases d with
    | jstr s2 => exact absurd rfl (h s2)
    | jnum n => rfl
    | jbool b => rfl
    | jnull => rfl
    | jarr xs => rfl
    | jobj fs => rfl

theorem C8_responseTransform_witness :
    defaultTransform parseToy (.jstr "{}") = .jobj [] ∧
    defaultTransform parseToy (.jstr "nope") = .jstr "nope" ∧
    defaultTransform parseToy .jnull = .jnull ∧
    runTransforms (transformChain parseToy (.single (fun _ => .jnum 7)))
        (.jstr "{}")
      = runTransforms (userTransformList (.single (fun _ => .jnum 7)))
          (defaultTransform parseToy (.jstr "{}")) :=
  have h1 := C8_responseTransform parseToy (.single (fun _ => .jnum 7))
    (.jnull) "{}" (.jobj [])
  have h2 := C8_responseTransform parseToy (.single (fun _ => .jnum 7))
    (.jstr "{}") "nope" (.jobj [])
  ⟨h1.1 rfl, h2.2.1 rfl, h1.2.2.1 (fun s2 hc => JSValue.noConfusion hc),
    h2.2.2.2⟩

/-- C9 (confirmed): every value produced by the trace-context synthesizer
matches `^00-[0-9a-f]\x7b32\x7d-[0-9a-f]\x7b16\x7d-01$`. -/
theorem C9_traceparentShape (gT gP : Nat → Nat) :
    isTraceparentShape (generateTraceparent gT gP).1 = true :=
  isTraceparentShape_gen gT gP

/-- C10 (confirmed): a managed header pre-set to the empty string is falsy
in the presence check, so it is treated as absent and overwritten with the
injected value whenever the corresponding feature is enabled. -/
theorem C10_emptyString (cfg : Config) (ent : Entropy) (span : Option String)
    (hs : Headers) :
    (cfg.disableTransactionId = false →
      getHeader hs cfg.transactionIdHeader = some "" →
      cfg.transactionIdHeader ≠ "X-Trace-ID" →
      cfg.transactionIdHeader ≠ "traceparent" →
      getHeader (interceptor cfg ent span hs) cfg.transactionIdHeader
        = some (txnValue cfg ent span hs) ∧ txnValue cfg ent span hs ≠ "") ∧
    (cfg.enableTraceContext = true → getHeader hs "traceparent" = some "" →
      getHeader (interceptor cfg ent span hs) "traceparent"
        = some (generateTraceparent ent.traceBytes ent.parentBytes).1 ∧
      (generateTraceparent ent.traceBytes ent.parentBytes).1 ≠ "") ∧
    (∀ t, span = some t → t ≠ "" → cfg.enableTraceContext = true →
      getHeader hs "X-Trace-ID" = some "" →
      getHeader (interceptor cfg ent span hs) "X-Trace-ID" = some t) ∧
    (∀ sn, cfg.serviceName = some sn → sn ≠ "" →
      cfg.transactionIdHeader ≠ "X-Source-Service" →
      getHeader hs "X-Source-Service" = some "" →
      getHeader (interceptor cfg ent span hs) "X-Source-Service" = some sn) := by
  refine ⟨?_, ?_, ?_, ?_⟩
  · intro hdis habs h1 h2
    exact ⟨txn_final cfg ent span hs hdis
      (by rw [headerTruthy_false_iff]; exact Or.inr habs) h1 h2,
      txnValue_ne_empty cfg ent span hs⟩
  · intro hen habs
    exact ⟨tp_final cfg ent span hs hen
      (by rw [headerTruthy_false_iff]; exact Or.inr habs),
      traceparent_ne_empty ent.traceBytes ent.parentBytes⟩
  · intro t hspan ht hen habs
    subst hspan
    exact xtrace_final cfg ent t hs hen
      (by rw [headerTruthy_false_iff]; exact Or.inr habs) ht
  · intro sn hsn hsn2 hhdr habs
    exact xsource_final cfg ent span hs sn hsn hsn2
      (by rw [headerTruthy_false_iff]; exact Or.inr habs) hhdr

theorem C10_emptyString_witness :
    getHeader (interceptor
        { enableTraceContext := true, serviceName := some "SVC" } entZero
        (some "beef")
        [("X-Transaction-ID", ""), ("traceparent", ""), ("X-Trace-ID", ""),
         ("X-Source-Service", "")]) "X-Transaction-ID"
      = some (txnValue { enableTraceContext := true, serviceName := some "SVC" }
          entZero (some "beef")
          [("X-Transaction-ID", ""), ("traceparent", ""), ("X-Trace-ID", ""),
           ("X-Source-Service", "")]) ∧
    getHeader (interceptor
        { enableTraceContext := true, serviceName := some "SVC" } entZero
        (some "beef")
        [("X-Transaction-ID", ""), ("traceparent", ""), ("X-Trace-ID", ""),
         ("X-Source-Service", "")]) "traceparent"
      = some (generateTraceparent entZero.traceBytes entZero.parentBytes).1 ∧
    getHeader (interceptor
        { enableTraceContext := true, serviceName := some "SVC" } entZero
        (some "beef")
        [("X-Transaction-ID", ""), ("traceparent", ""), ("X-Trace-ID", ""),
         ("X-Source-Service", "")]) "X-Trace-ID" = some "beef" ∧
    getHeader (interceptor
        { enableTraceContext := true, serviceName := some "SVC" } entZero
        (some "beef")
        [("X-Transaction-ID", ""), ("traceparent", ""), ("X-Trace-ID", ""),
         ("X-Source-Service", "")]) "X-Source-Service" = some "SVC" :=
  have h := C10_emptyString
    { enableTraceContext := true, serviceName := some "SVC" } entZero
    (some "beef")
    [("X-Transaction-ID", ""), ("traceparent", ""), ("X-Trace-ID", ""),
     ("X-Source-Service", "")]
  ⟨(h.1 rfl (by decide) (by decide) (by decide)).1,
    (h.2.1 rfl (by decide)).1,
    h.2.2.1 "beef" rfl (by decide) rfl (by decide),
    h.2.2.2 "SVC" rfl (by decide) (by decide) (by decide)⟩

end HttpClient
